import Mathlib

/-!
A shallow embedding of `src/rust/src/fvm/machine.rs`: the FFI boundary layer
that creates, drives and tears down FVM machine instances behind opaque `u64`
handles.  External collaborators (the `fvm` execution engine, the `cid` and
`fvm_shared` conversions, and the message converter from the sibling `types`
module) are consumed as black boxes and are therefore parameters of the
embedding; everything in `machine.rs` itself is translated directly.
-/

namespace FfiDemo

/-- Rust `as` cast of a `u64` value to `u32`: truncation mod 2^32. -/
def u64_as_u32 (n : Nat) : Nat := n % 2 ^ 32

/-- Rust `as` cast of a `u64` value to `i32`: truncate to 32 bits, then
reinterpret the sign bit. -/
def u64_as_i32 (n : Nat) : Int :=
  let m : Nat := n % 2 ^ 32
  if m < 2 ^ 31 then (m : Int) else (m : Int) - 2 ^ 32

/-- Rust `as` cast of a `u64` value to `i64` (`ChainEpoch`): reinterpret the
sign bit. -/
def u64_as_i64 (n : Nat) : Int :=
  let m : Nat := n % 2 ^ 64
  if m < 2 ^ 63 then (m : Int) else (m : Int) - 2 ^ 64

/-- Status codes from `ffi_toolkit::FCPResponseStatus` (external crate).  Only
`FCPNoError` and `FCPUnclassifiedError` are used by this layer; the Rust
`Default` is the first variant, `FCPNoError` (discriminant 0). -/
inductive FCPResponseStatus where
  | FCPNoError
  | FCPUnclassifiedError
  | FCPCallerError
  | FCPReceiverError
deriving DecidableEq

/-- `fvm_shared::econ::TokenAmount`: per the spec an arbitrary-precision
non-negative economic value; modelled as a wrapped natural number. -/
structure TokenAmount where
  val : Nat
deriving DecidableEq

/-- Modelled from the spec: `TokenAmount::from_u64` (the external crate
`fvm_shared` is not under src/).  `TokenAmount` is arbitrary-precision, so
embedding a `u64` never fails: the conversion is total and returns `some`. -/
def TokenAmount.from_u64 (n : Nat) : Option TokenAmount := some ⟨n⟩

/-- `fvm_shared::version::NetworkVersion` (external): a small integer version
tag; its fallible `TryFrom<u32>` is a parameter of the embedding. -/
structure NetworkVersion where
  ver : Nat
deriving DecidableEq

/-- `cid::Cid` (external): a content identifier parsed from raw bytes; the
fallible parse `Cid::try_from` is a parameter of the embedding. -/
structure Cid where
  bytes : List Nat
deriving DecidableEq

/-- `blockstore::cgo::CgoBlockstore` (external): a block-storage binding keyed
by an opaque integer id. -/
structure CgoBlockstore where
  handle : Int
deriving DecidableEq

def CgoBlockstore.new (i : Int) : CgoBlockstore := ⟨i⟩

/-- `fvm::externs::cgo::CgoExterns` (external): an engine-external services
binding keyed by an opaque integer id. -/
structure CgoExterns where
  handle : Int
deriving DecidableEq

def CgoExterns.new (i : Int) : CgoExterns := ⟨i⟩

/-- `type CgoMachine = Machine<CgoBlockstore, CgoExterns>`: a live execution
engine instance.  The engine is a black box, so the instance is opaque data. -/
structure CgoMachine where
  data : Nat
deriving DecidableEq

/-- `fvm::Config`: wasm interpreter limits.  The `engine : wasmtime::Config`
field carries no observable data at this layer and is omitted. -/
structure Config where
  initial_pages : Nat
  max_pages : Nat
deriving DecidableEq

/-- `get_default_config` from machine.rs. -/
def get_default_config : Config :=
  { initial_pages := 1024, max_pages := 32768 }

/-- `fvm::machine::ApplyKind`. -/
inductive ApplyKind where
  | Explicit
  | Implicit
deriving DecidableEq

/-- `fvm::machine::ApplyRet` (external): the engine's application result, with
the fields the spec names for the response payload contract: gas used, return
data and exit code. -/
structure ApplyRet where
  gas_used : Nat
  return_data : List Nat
  exit_code : Nat
deriving DecidableEq

/-- `fvm::message::Message` (external native message type); opaque here. -/
structure Message where
  raw : Nat
deriving DecidableEq

/-- `fil_Message` from the sibling `types` module (not under src/): the
foreign-supplied message record, opaque here; only its fallible conversion to
`Message` matters at this layer. -/
structure fil_Message where
  raw : Nat
deriving DecidableEq

/-- Modelled from the spec: `fil_CreateFvmMachineResponse` is declared in this
repository's `types` module, which is not under src/.  Per §3/§6 the response
record is {status code, optional error message, payload}; the payload of
`create` is the machine handle.  Rust `Default`: status `FCPNoError`
(discriminant 0), `error_msg` the null pointer (here `none`), `machine_id` 0. -/
structure fil_CreateFvmMachineResponse where
  status_code : FCPResponseStatus := .FCPNoError
  error_msg : Option String := none
  machine_id : Nat := 0
deriving DecidableEq

/-- Modelled from the spec: `fil_DropFvmMachineResponse` from the `types`
module (not under src/): status code and optional error message, no payload. -/
structure fil_DropFvmMachineResponse where
  status_code : FCPResponseStatus := .FCPNoError
  error_msg : Option String := none
deriving DecidableEq

/-- Modelled from the spec: `fil_FvmMachineExecuteResponse` from the `types`
module (not under src/): status code, optional error message, and the result
payload the spec's contract names — gas used, return data, exit code — all
defaulting to zero values. -/
structure fil_FvmMachineExecuteResponse where
  status_code : FCPResponseStatus := .FCPNoError
  error_msg : Option String := none
  gas_used : Nat := 0
  return_val : List Nat := []
  exit_code : Nat := 0
deriving DecidableEq

/-- Outcome of running a body that may panic: either a normal value or a Rust
panic carrying its message.  `todo!("m")` panics with
`"not yet implemented: m"`. -/
inductive PanicOr (α : Type) where
  | panicked (msg : String)
  | ok (v : α)
deriving DecidableEq

/-- Modelled from the spec (§4.2): `ffi_toolkit::catch_panic_response`
(external crate) runs the body inside a failure-containment scope; a panic is
caught at the boundary and converted by `onPanic` into an error response, and
a normal result passes through unchanged. -/
def catch_panic_response {α : Type} (onPanic : String → α) (body : PanicOr α) : α :=
  match body with
  | .ok v => v
  | .panicked msg => onPanic msg

/-- The process-wide registry `FVM_MAP: Lazy<Mutex<HashMap<u64, CgoMachine>>>`,
modelled as a partial map from handles to machine instances.  All entry points
are synchronous; the mutex serializes access, so each call sees and produces
one registry state. -/
structure FvmState where
  FVM_MAP : Nat → Option CgoMachine

/-- The registry at process start: empty. -/
def initialState : FvmState := ⟨fun _ => none⟩

/-- `HashMap::insert`. -/
def FvmState.insert (s : FvmState) (k : Nat) (m : CgoMachine) : FvmState :=
  ⟨fun j => if j = k then some m else s.FVM_MAP j⟩

/-- `HashMap::remove`: deletes the key; removing an absent key leaves the map
unchanged. -/
def FvmState.remove (s : FvmState) (k : Nat) : FvmState :=
  ⟨fun j => if j = k then none else s.FVM_MAP j⟩

/-- `const NEXT_ID: AtomicU64 = AtomicU64::new(0);` — machine.rs line 38.
In Rust a `const` item is inlined as a fresh value at every use site, so each
mention of `NEXT_ID` denotes a new temporary `AtomicU64` initialized to 0;
`fetch_add` on it returns that temporary's prior value, always the initializer
0, and the incremented temporary is dropped.  The constant is therefore
modelled by the value every `fetch_add` observes. -/
def NEXT_ID : Nat := 0

/-- `add_fvm_machine` from machine.rs: `NEXT_ID.fetch_add(1, SeqCst)` yields
the pre-increment value of the fresh `const` temporary (see `NEXT_ID`), then
the machine is inserted under that id and the id returned. -/
def add_fvm_machine (machine : CgoMachine) (s : FvmState) : Nat × FvmState :=
  let next_id := NEXT_ID
  (next_id, s.insert next_id machine)

/-- The external collaborators consumed by machine.rs, as black-box
parameters: the `fvm_shared`/`cid` conversions, the engine constructor
`Machine::new`, the engine call `Machine::execute_message` (which takes the
machine by mutable reference: it returns the updated machine alongside the
result, on success and on failure alike), and
`convert_fil_message_to_message` from the sibling `types` module (not under
src/).  Each fallible call's error is its formatted message
(`format!("{:?}", err)`). -/
structure Externals where
  networkVersion_try_from : Nat → Except String NetworkVersion
  cid_try_from : List Nat → Except String Cid
  machine_new : Config → Int → TokenAmount → NetworkVersion → Cid →
    CgoBlockstore → CgoExterns → Except String CgoMachine
  execute_message : CgoMachine → Message → ApplyKind →
    Except String ApplyRet × CgoMachine
  convert_fil_message_to_message : fil_Message → Except String Message

/-- The panic handler `catch_panic_response` uses for the create entry point:
an `FCPUnclassifiedError` response carrying the panic's message. -/
def create_panic_response (msg : String) : fil_CreateFvmMachineResponse :=
  { status_code := .FCPUnclassifiedError, error_msg := some msg }

/-- The panic handler for the drop entry point. -/
def drop_panic_response (msg : String) : fil_DropFvmMachineResponse :=
  { status_code := .FCPUnclassifiedError, error_msg := some msg }

/-- The panic handler for the execute entry point. -/
def execute_panic_response (msg : String) : fil_FvmMachineExecuteResponse :=
  { status_code := .FCPUnclassifiedError, error_msg := some msg }

/-- Body of `fil_create_fvm_machine` (machine.rs lines 71-134), the code run
inside `catch_panic_response`: convert the token amount (checked via
`is_some`/`unwrap`), the network version (after an `as u32` cast) and the
state-root bytes in that order, returning an `FCPUnclassifiedError` response
at the first failure; then construct the engine instance and, on success,
register it via `add_fvm_machine` and return its id.  The body contains no
panic source, so it always yields `ok`. -/
def fil_create_fvm_machine_body (ext : Externals)
    (chain_epoch token_amount network_version : Nat)
    (state_root_bytes : List Nat) (blockstore_id externs_id : Nat)
    (s : FvmState) : PanicOr (fil_CreateFvmMachineResponse × FvmState) :=
  PanicOr.ok <|
    let response : fil_CreateFvmMachineResponse := {}
    let config := get_default_config
    let epoch := u64_as_i64 chain_epoch
    match TokenAmount.from_u64 token_amount with
    | none =>
      ({ response with status_code := .FCPUnclassifiedError,
                       error_msg := some "token amount conversion failure" }, s)
    | some amount =>
      match ext.networkVersion_try_from (u64_as_u32 network_version) with
      | .error err =>
        ({ response with status_code := .FCPUnclassifiedError,
                         error_msg := some err }, s)
      | .ok nv =>
        match ext.cid_try_from state_root_bytes with
        | .error err =>
          ({ response with status_code := .FCPUnclassifiedError,
                           error_msg := some err }, s)
        | .ok state_root =>
          let blockstore := CgoBlockstore.new (u64_as_i32 blockstore_id)
          let ext_binding := CgoExterns.new (u64_as_i32 externs_id)
          match ext.machine_new config epoch amount nv state_root
              blockstore ext_binding with
          | .ok machine =>
            let idState := add_fvm_machine machine s
            ({ response with status_code := .FCPNoError,
                             machine_id := idState.1 }, idState.2)
          | .error err =>
            ({ response with status_code := .FCPUnclassifiedError,
                             error_msg := some err }, s)

/-- `fil_create_fvm_machine`: the body wrapped in `catch_panic_response`.
The `fvm_version` argument is unused by the source and omitted. -/
def fil_create_fvm_machine (ext : Externals)
    (chain_epoch token_amount network_version : Nat)
    (state_root_bytes : List Nat) (blockstore_id externs_id : Nat)
    (s : FvmState) : fil_CreateFvmMachineResponse × FvmState :=
  catch_panic_response (fun msg => (create_panic_response msg, s))
    (fil_create_fvm_machine_body ext chain_epoch token_amount network_version
      state_root_bytes blockstore_id externs_id s)

/-- Body of `fil_drop_fvm_machine` (machine.rs lines 138-162):
`FVM_MAP.remove(&machine_id)` — success if the handle was present, otherwise
an `FCPUnclassifiedError` response with the fixed "invalid machine id"
message; the map is unchanged in the latter case. -/
def fil_drop_fvm_machine_body (machine_id : Nat) (s : FvmState) :
    PanicOr (fil_DropFvmMachineResponse × FvmState) :=
  PanicOr.ok <|
    let response : fil_DropFvmMachineResponse := {}
    match s.FVM_MAP machine_id with
    | some _ =>
      ({ response with status_code := .FCPNoError }, s.remove machine_id)
    | none =>
      ({ response with status_code := .FCPUnclassifiedError,
                       error_msg := some "invalid machine id" }, s)

/-- `fil_drop_fvm_machine`: the body wrapped in `catch_panic_response`. -/
def fil_drop_fvm_machine (machine_id : Nat) (s : FvmState) :
    fil_DropFvmMachineResponse × FvmState :=
  catch_panic_response (fun msg => (drop_panic_response msg, s))
    (fil_drop_fvm_machine_body machine_id s)

/-- Body of `fil_fvm_machine_execute_message` (machine.rs lines 165-218):
decode the apply kind (0 = Explicit, nonzero = Implicit), convert the message
— on failure return the conversion error before the registry is consulted —
then lock the map, look up the handle (reporting "invalid machine id" when
absent) and run `Machine::execute_message` on the instance in place.  On
engine success the status is `FCPNoError` but the `ApplyRet` fields are NOT
copied into the response (`// FIXME: Return relevant fields of ApplyRet`,
line 206): the payload stays at its defaults. -/
def fil_fvm_machine_execute_message_body (ext : Externals) (machine_id : Nat)
    (message : fil_Message) (apply_kind : Nat) (s : FvmState) :
    PanicOr (fil_FvmMachineExecuteResponse × FvmState) :=
  PanicOr.ok <|
    let response : fil_FvmMachineExecuteResponse := {}
    let kind := if apply_kind = 0 then ApplyKind.Explicit else ApplyKind.Implicit
    match ext.convert_fil_message_to_message message with
    | .error err =>
      ({ response with status_code := .FCPUnclassifiedError,
                       error_msg := some err }, s)
    | .ok msg =>
      match s.FVM_MAP machine_id with
      | none =>
        ({ response with status_code := .FCPUnclassifiedError,
                         error_msg := some "invalid machine id" }, s)
      | some machine =>
        let retMachine := ext.execute_message machine msg kind
        match retMachine.1 with
        | .error err =>
          ({ response with status_code := .FCPUnclassifiedError,
                           error_msg := some err },
           s.insert machine_id retMachine.2)
        | .ok _apply_ret =>
          ({ response with status_code := .FCPNoError },
           s.insert machine_id retMachine.2)

/-- `fil_fvm_machine_execute_message`: the body wrapped in
`catch_panic_response`. -/
def fil_fvm_machine_execute_message (ext : Externals) (machine_id : Nat)
    (message : fil_Message) (apply_kind : Nat) (s : FvmState) :
    fil_FvmMachineExecuteResponse × FvmState :=
  catch_panic_response (fun msg => (execute_panic_response msg, s))
    (fil_fvm_machine_execute_message_body ext machine_id message apply_kind s)

/-- `fil_fvm_machine_finish_message` (machine.rs lines 221-243).  Unlike the
other entry points, the `catch_panic_response` wrapper is COMMENTED OUT in the
source, the function returns no response record (its return type is unit),
and both branches are `todo!`: `todo!("execute message")` when the handle is
found and `todo!("invalid machine id")` when it is not.  `todo!` panics with
"not yet implemented: " prepended to its message, and with no wrapper the
panic propagates out of the call.  The registry is only read, never written,
so the state component is returned unchanged. -/
def fil_fvm_machine_finish_message (machine_id : Nat) (s : FvmState) :
    PanicOr Unit × FvmState :=
  match s.FVM_MAP machine_id with
  | some _ => (.panicked "not yet implemented: execute message", s)
  | none => (.panicked "not yet implemented: invalid machine id", s)

/-! Concrete instantiations of the external collaborators, used to evaluate
the entry points on closed inputs. -/

/-- Externals on which every conversion and engine call succeeds; the
constructed machine carries the tag `d`. -/
def mkOkExternals (d : Nat) : Externals where
  networkVersion_try_from := fun n => .ok ⟨n⟩
  cid_try_from := fun bs => .ok ⟨bs⟩
  machine_new := fun _ _ _ _ _ _ _ => .ok ⟨d⟩
  execute_message := fun m _ _ => (.ok ⟨0, [], 0⟩, m)
  convert_fil_message_to_message := fun m => .ok ⟨m.raw⟩

/-- Externals whose state-root parse always fails. -/
def badCidExternals : Externals :=
  { mkOkExternals 0 with cid_try_from := fun _ => .error "bad cid" }

/-- Externals whose message conversion always fails. -/
def badMsgExternals : Externals :=
  { mkOkExternals 0 with
      convert_fil_message_to_message := fun _ => .error "conversion failed" }

/-- Externals whose message conversion and state-root parse fail while the
network-version conversion succeeds. -/
def badMsgBadCidExternals : Externals :=
  { mkOkExternals 0 with
      convert_fil_message_to_message := fun _ => .error "message conversion failed"
      cid_try_from := fun _ => .error "cid parse failed" }

/-- Externals whose engine apply succeeds with a non-default result:
gas used 42, return data [1, 2, 3], exit code 7. -/
def richExternals : Externals :=
  { mkOkExternals 0 with
      execute_message := fun m _ _ => (.ok ⟨42, [1, 2, 3], 7⟩, m) }

/-- C1: the claim says handles returned by successful create calls are
pairwise distinct, strictly increasing and never reused.  On the code this
fails: `NEXT_ID` is a Rust `const`, so `fetch_add` acts on a fresh temporary
atomic each call and always returns 0 — two consecutive successful create
calls both return handle 0, and the second insert overwrites the first
machine under the reused handle. -/
theorem create_handles_not_strictly_increasing :
    ((fil_create_fvm_machine (mkOkExternals 1) 100 0 18 [0] 7 8
        initialState).1.status_code = FCPResponseStatus.FCPNoError ∧
      (fil_create_fvm_machine (mkOkExternals 1) 100 0 18 [0] 7 8
        initialState).1.machine_id = 0) ∧
    ((fil_create_fvm_machine (mkOkExternals 2) 100 0 18 [0] 7 8
        (fil_create_fvm_machine (mkOkExternals 1) 100 0 18 [0] 7 8
          initialState).2).1.status_code = FCPResponseStatus.FCPNoError ∧
      (fil_create_fvm_machine (mkOkExternals 2) 100 0 18 [0] 7 8
        (fil_create_fvm_machine (mkOkExternals 1) 100 0 18 [0] 7 8
          initialState).2).1.machine_id = 0) ∧
    ((fil_create_fvm_machine (mkOkExternals 2) 100 0 18 [0] 7 8
        (fil_create_fvm_machine (mkOkExternals 1) 100 0 18 [0] 7 8
          initialState).2).2.FVM_MAP 0 = some ⟨2⟩) := by
  decide

/-- C2 counterexample: the finish entry point is not wrapped in
`catch_panic_response` (the wrapper is commented out in the source), so the
`todo!` panic raised in its body propagates out of the call instead of being
converted into an `UnclassifiedError` response record. -/
theorem finish_message_panic_escapes :
    (fil_fvm_machine_finish_message 0 initialState).1
      = PanicOr.panicked "not yet implemented: invalid machine id" := by
  decide

/-- C2 amended: create, drop and execute each run their body inside
`catch_panic_response`, which converts any panic raised in the body into a
response with `FCPUnclassifiedError` status and the panic's message and never
lets it propagate; finish is not wrapped and its body panics via `todo!` on
every input. -/
theorem wrapped_entry_points_contain_panics (ext : Externals)
    (chain_epoch token_amount network_version : Nat)
    (state_root_bytes : List Nat)
    (blockstore_id externs_id machine_id apply_kind : Nat)
    (message : fil_Message) (s : FvmState) (msg : String) :
    (fil_create_fvm_machine ext chain_epoch token_amount network_version
        state_root_bytes blockstore_id externs_id s
      = catch_panic_response (fun m => (create_panic_response m, s))
          (fil_create_fvm_machine_body ext chain_epoch token_amount
            network_version state_root_bytes blockstore_id externs_id s)) ∧
    (fil_drop_fvm_machine machine_id s
      = catch_panic_response (fun m => (drop_panic_response m, s))
          (fil_drop_fvm_machine_body machine_id s)) ∧
    (fil_fvm_machine_execute_message ext machine_id message apply_kind s
      = catch_panic_response (fun m => (execute_panic_response m, s))
          (fil_fvm_machine_execute_message_body ext machine_id message
            apply_kind s)) ∧
    (catch_panic_response (fun m => (create_panic_response m, s))
        (PanicOr.panicked msg)
      = ({ status_code := .FCPUnclassifiedError, error_msg := some msg }, s)) ∧
    (catch_panic_response (fun m => (drop_panic_response m, s))
        (PanicOr.panicked msg)
      = ({ status_code := .FCPUnclassifiedError, error_msg := some msg }, s)) ∧
    (catch_panic_response (fun m => (execute_panic_response m, s))
        (PanicOr.panicked msg)
      = ({ status_code := .FCPUnclassifiedError, error_msg := some msg }, s)) ∧
    ((fil_fvm_machine_finish_message machine_id s).1
        = PanicOr.panicked "not yet implemented: execute message" ∨
      (fil_fvm_machine_finish_message machine_id s).1
        = PanicOr.panicked "not yet implemented: invalid machine id") := by
  refine ⟨rfl, rfl, rfl, rfl, rfl, rfl, ?_⟩
  cases h : s.FVM_MAP machine_id <;>
    simp [fil_fvm_machine_finish_message, h]

/-- C3 counterexample: finish does not return a failure result — on a known
handle (and likewise on an unknown one) it panics via `todo!`; its source
return type is unit, so no failure response record exists at all. -/
theorem finish_no_failure_result :
    (fil_fvm_machine_finish_message 0 (initialState.insert 0 ⟨0⟩)).1
        = PanicOr.panicked "not yet implemented: execute message" ∧
    (fil_fvm_machine_finish_message 0 (initialState.insert 0 ⟨0⟩)).1
        ≠ PanicOr.ok () ∧
    (fil_fvm_machine_finish_message 5 (initialState.insert 0 ⟨0⟩)).1
        ≠ PanicOr.ok () := by
  decide

/-- C3 amended: finish never silently no-ops and never returns normally — for
a known handle it panics with the `todo!` message of the unimplemented engine
finalization, for an unknown handle with the `todo!` invalid-machine-id
message; it returns no failure result, the panic propagating out instead, and
the registry is left unchanged. -/
theorem finish_message_fails_loudly (machine_id : Nat) (s : FvmState) :
    (fil_fvm_machine_finish_message machine_id s).1
      = PanicOr.panicked
          (match s.FVM_MAP machine_id with
            | some _ => "not yet implemented: execute message"
            | none => "not yet implemented: invalid machine id") ∧
    (fil_fvm_machine_finish_message machine_id s).1 ≠ PanicOr.ok () ∧
    (fil_fvm_machine_finish_message machine_id s).2 = s := by
  cases h : s.FVM_MAP machine_id <;>
    simp [fil_fvm_machine_finish_message, h]

/-- C4: the claim says a successful execute response's payload is fully
populated with the engine result's fields.  On the code this fails: with the
engine returning gas used 42, return data [1, 2, 3] and exit code 7, the
response has `FCPNoError` status but every payload field is left at its
default (`// FIXME: Return relevant fields of ApplyRet`, machine.rs line
206). -/
theorem execute_success_payload_left_default :
    ((fil_fvm_machine_execute_message richExternals 0 ⟨0⟩ 0
        (initialState.insert 0 ⟨0⟩)).1.status_code
      = FCPResponseStatus.FCPNoError) ∧
    ((fil_fvm_machine_execute_message richExternals 0 ⟨0⟩ 0
        (initialState.insert 0 ⟨0⟩)).1.error_msg = none) ∧
    ((fil_fvm_machine_execute_message richExternals 0 ⟨0⟩ 0
        (initialState.insert 0 ⟨0⟩)).1.gas_used = 0) ∧
    ((fil_fvm_machine_execute_message richExternals 0 ⟨0⟩ 0
        (initialState.insert 0 ⟨0⟩)).1.return_val = []) ∧
    ((fil_fvm_machine_execute_message richExternals 0 ⟨0⟩ 0
        (initialState.insert 0 ⟨0⟩)).1.exit_code = 0) := by
  decide

/-- C5 counterexample: on a never-issued handle, finish panics (uncontained
`todo!`) instead of returning an `UnclassifiedError` response; and execute
whose message fails to convert reports the conversion error, not the fixed
"invalid machine id" message. -/
theorem unknown_handle_claim_cex :
    ((fil_fvm_machine_finish_message 5 initialState).1
      = PanicOr.panicked "not yet implemented: invalid machine id") ∧
    ((fil_fvm_machine_execute_message badMsgExternals 5 ⟨0⟩ 0
        initialState).1.error_msg = some "conversion failed") ∧
    ((fil_fvm_machine_execute_message badMsgExternals 5 ⟨0⟩ 0
        initialState).1.error_msg ≠ some "invalid machine id") := by
  decide

/-- C5 amended: for a handle not present in the registry, drop returns an
`FCPUnclassifiedError` response with the fixed "invalid machine id" message
and leaves the registry unchanged; execute does likewise provided its message
converts successfully; finish returns no response — it panics with the
`todo!` invalid-machine-id message — and also leaves the registry
unchanged. -/
theorem unknown_handle_rejected (ext : Externals)
    (machine_id apply_kind : Nat) (message : fil_Message) (m : Message)
    (s : FvmState) (h : s.FVM_MAP machine_id = none)
    (hc : ext.convert_fil_message_to_message message = Except.ok m) :
    (fil_drop_fvm_machine machine_id s
      = ({ status_code := .FCPUnclassifiedError,
           error_msg := some "invalid machine id" }, s)) ∧
    (fil_fvm_machine_execute_message ext machine_id message apply_kind s
      = ({ status_code := .FCPUnclassifiedError,
           error_msg := some "invalid machine id" }, s)) ∧
    (fil_fvm_machine_finish_message machine_id s
      = (PanicOr.panicked "not yet implemented: invalid machine id", s)) := by
  refine ⟨?_, ?_, ?_⟩
  · simp [fil_drop_fvm_machine, fil_drop_fvm_machine_body,
      catch_panic_response, h]
  · simp [fil_fvm_machine_execute_message,
      fil_fvm_machine_execute_message_body, catch_panic_response, hc, h]
  · simp [fil_fvm_machine_finish_message, h]

/-- C5 witness: the amended behaviour at a concrete never-issued handle. -/
theorem unknown_handle_rejected_witness :
    initialState.FVM_MAP 5 = none ∧
    (mkOkExternals 0).convert_fil_message_to_message ⟨0⟩ = Except.ok ⟨0⟩ ∧
    ((fil_drop_fvm_machine 5 initialState
      = ({ status_code := .FCPUnclassifiedError,
           error_msg := some "invalid machine id" }, initialState)) ∧
    (fil_fvm_machine_execute_message (mkOkExternals 0) 5 ⟨0⟩ 0 initialState
      = ({ status_code := .FCPUnclassifiedError,
           error_msg := some "invalid machine id" }, initialState)) ∧
    (fil_fvm_machine_finish_message 5 initialState
      = (PanicOr.panicked "not yet implemented: invalid machine id",
         initialState))) :=
  ⟨rfl, rfl, unknown_handle_rejected (mkOkExternals 0) 5 0 ⟨0⟩ ⟨0⟩
    initialState rfl rfl⟩

/-- C6: if the state-root bytes fail to parse as a content identifier, or the
engine constructor fails on everything it could be handed at this call, the
create entry point returns an `FCPUnclassifiedError` response, the handle
payload stays 0 (`add_fvm_machine` is never reached) and the registry is
unchanged. -/
theorem create_failure_no_insert (ext : Externals)
    (chain_epoch token_amount network_version : Nat)
    (state_root_bytes : List Nat) (blockstore_id externs_id : Nat)
    (s : FvmState)
    (h : (∃ e, ext.cid_try_from state_root_bytes = Except.error e) ∨
         (∀ nv c, ∃ e, ext.machine_new get_default_config
            (u64_as_i64 chain_epoch) ⟨token_amount⟩ nv c
            (CgoBlockstore.new (u64_as_i32 blockstore_id))
            (CgoExterns.new (u64_as_i32 externs_id)) = Except.error e)) :
    ((fil_create_fvm_machine ext chain_epoch token_amount network_version
        state_root_bytes blockstore_id externs_id s).1.status_code
      = FCPResponseStatus.FCPUnclassifiedError) ∧
    ((fil_create_fvm_machine ext chain_epoch token_amount network_version
        state_root_bytes blockstore_id externs_id s).1.machine_id = 0) ∧
    ((fil_create_fvm_machine ext chain_epoch token_amount network_version
        state_root_bytes blockstore_id externs_id s).2 = s) := by
  unfold fil_create_fvm_machine fil_create_fvm_machine_body
  cases hnv : ext.networkVersion_try_from (u64_as_u32 network_version) with
  | error e =>
    simp [catch_panic_response, TokenAmount.from_u64, hnv]
  | ok nv =>
    cases hcid : ext.cid_try_from state_root_bytes with
    | error e =>
      simp [catch_panic_response, TokenAmount.from_u64, hnv, hcid]
    | ok c =>
      rcases h with ⟨e, he⟩ | hall
      · rw [hcid] at he
        exact absurd he (by simp)
      · rcases hall nv c with ⟨e, he⟩
        simp [catch_panic_response, TokenAmount.from_u64, hnv, hcid, he]

/-- C6 witness: a concrete create call whose state-root parse fails. -/
theorem create_failure_no_insert_witness :
    badCidExternals.cid_try_from [9] = Except.error "bad cid" ∧
    (((fil_create_fvm_machine badCidExternals 100 0 18 [9] 7 8
        initialState).1.status_code = FCPResponseStatus.FCPUnclassifiedError) ∧
    ((fil_create_fvm_machine badCidExternals 100 0 18 [9] 7 8
        initialState).1.machine_id = 0) ∧
    ((fil_create_fvm_machine badCidExternals 100 0 18 [9] 7 8
        initialState).2 = initialState)) :=
  ⟨rfl, create_failure_no_insert badCidExternals 100 0 18 [9] 7 8
    initialState (Or.inl ⟨"bad cid", rfl⟩)⟩

/-- C7: every response record any entry point returns — including the ones
the panic handlers build inside `catch_panic_response` — has its error
message set if and only if its status code is non-success, and a non-success
response carries no payload (its payload fields stay at their zero
defaults). -/
theorem response_error_msg_iff_failure (ext : Externals)
    (chain_epoch token_amount network_version : Nat)
    (state_root_bytes : List Nat)
    (blockstore_id externs_id machine_id apply_kind : Nat)
    (message : fil_Message) (s : FvmState) (panic_msg : String) :
    (((fil_create_fvm_machine ext chain_epoch token_amount network_version
          state_root_bytes blockstore_id externs_id s).1.status_code
        = FCPResponseStatus.FCPNoError ↔
      (fil_create_fvm_machine ext chain_epoch token_amount network_version
          state_root_bytes blockstore_id externs_id s).1.error_msg = none) ∧
     ((fil_create_fvm_machine ext chain_epoch token_amount network_version
          state_root_bytes blockstore_id externs_id s).1.status_code
        = FCPResponseStatus.FCPNoError ∨
      (fil_create_fvm_machine ext chain_epoch token_amount network_version
          state_root_bytes blockstore_id externs_id s).1.machine_id = 0)) ∧
    ((fil_drop_fvm_machine machine_id s).1.status_code
        = FCPResponseStatus.FCPNoError ↔
      (fil_drop_fvm_machine machine_id s).1.error_msg = none) ∧
    (((fil_fvm_machine_execute_message ext machine_id message apply_kind
          s).1.status_code = FCPResponseStatus.FCPNoError ↔
      (fil_fvm_machine_execute_message ext machine_id message apply_kind
          s).1.error_msg = none) ∧
     ((fil_fvm_machine_execute_message ext machine_id message apply_kind
          s).1.status_code = FCPResponseStatus.FCPNoError ∨
      ((fil_fvm_machine_execute_message ext machine_id message apply_kind
          s).1.gas_used = 0 ∧
       (fil_fvm_machine_execute_message ext machine_id message apply_kind
          s).1.return_val = [] ∧
       (fil_fvm_machine_execute_message ext machine_id message apply_kind
          s).1.exit_code = 0))) ∧
    (((create_panic_response panic_msg).status_code
        = FCPResponseStatus.FCPNoError ↔
      (create_panic_response panic_msg).error_msg = none) ∧
     (create_panic_response panic_msg).machine_id = 0) ∧
    ((drop_panic_response panic_msg).status_code
        = FCPResponseStatus.FCPNoError ↔
      (drop_panic_response panic_msg).error_msg = none) ∧
    (((execute_panic_response panic_msg).status_code
        = FCPResponseStatus.FCPNoError ↔
      (execute_panic_response panic_msg).error_msg = none) ∧
     (execute_panic_response panic_msg).gas_used = 0 ∧
     (execute_panic_response panic_msg).return_val = [] ∧
     (execute_panic_response panic_msg).exit_code = 0) := by
  refine ⟨?_, ?_, ?_, ?_, ?_, ?_⟩
  · unfold fil_create_fvm_machine fil_create_fvm_machine_body
    cases hnv : ext.networkVersion_try_from (u64_as_u32 network_version) with
    | error e => simp [catch_panic_response, TokenAmount.from_u64]
    | ok nv =>
      cases hcid : ext.cid_try_from state_root_bytes with
      | error e => simp [catch_panic_response, TokenAmount.from_u64]
      | ok c =>
        cases heng : ext.machine_new get_default_config
            (u64_as_i64 chain_epoch) ⟨token_amount⟩ nv c
            (CgoBlockstore.new (u64_as_i32 blockstore_id))
            (CgoExterns.new (u64_as_i32 externs_id)) with
        | ok mach =>
          simp [catch_panic_response, TokenAmount.from_u64,
            add_fvm_machine, NEXT_ID, heng]
        | error e =>
          simp [catch_panic_response, TokenAmount.from_u64, heng]
  · unfold fil_drop_fvm_machine fil_drop_fvm_machine_body
    cases h : s.FVM_MAP machine_id <;> simp [catch_panic_response]
  · unfold fil_fvm_machine_execute_message
      fil_fvm_machine_execute_message_body
    cases hmsg : ext.convert_fil_message_to_message message with
    | error e => simp [catch_panic_response]
    | ok m =>
      cases h : s.FVM_MAP machine_id with
      | none => simp [catch_panic_response]
      | some machine =>
        cases hr : (ext.execute_message machine m
            (if apply_kind = 0 then ApplyKind.Explicit
             else ApplyKind.Implicit)).1 with
        | error e => simp [catch_panic_response, hr]
        | ok ret => simp [catch_panic_response, hr]
  · exact ⟨by simp [create_panic_response], rfl⟩
  · simp [drop_panic_response]
  · exact ⟨by simp [execute_panic_response], rfl, rfl, rfl⟩

/-- C8: a failed message conversion in execute, and a failed conversion of
either kind in create — a malformed numeric (network-version) input, or a
valid network version with state-root bytes that fail to parse as a content
identifier — are each reported with `FCPUnclassifiedError` carrying the
conversion error, the registry is returned untouched, and the result does not
depend on the engine call: swapping `execute_message` (respectively
`Machine::new`) for anything else yields the same result, so no engine call
was made. -/
theorem conversion_error_before_engine (ext : Externals)
    (machine_id apply_kind : Nat) (message : fil_Message)
    (chain_epoch token_amount network_version : Nat)
    (state_root_bytes : List Nat) (blockstore_id externs_id : Nat)
    (s : FvmState) (e1 e2 : String)
    (hmsg : ext.convert_fil_message_to_message message = Except.error e1)
    (hcreate : ext.networkVersion_try_from (u64_as_u32 network_version)
        = Except.error e2 ∨
      ((∃ nv, ext.networkVersion_try_from (u64_as_u32 network_version)
          = Except.ok nv) ∧
       ext.cid_try_from state_root_bytes = Except.error e2)) :
    (fil_fvm_machine_execute_message ext machine_id message apply_kind s
      = ({ status_code := .FCPUnclassifiedError,
           error_msg := some e1 }, s)) ∧
    (∀ f, fil_fvm_machine_execute_message
        { ext with execute_message := f } machine_id message apply_kind s
      = ({ status_code := .FCPUnclassifiedError,
           error_msg := some e1 }, s)) ∧
    (fil_create_fvm_machine ext chain_epoch token_amount network_version
        state_root_bytes blockstore_id externs_id s
      = ({ status_code := .FCPUnclassifiedError,
           error_msg := some e2 }, s)) ∧
    (∀ g, fil_create_fvm_machine { ext with machine_new := g }
        chain_epoch token_amount network_version state_root_bytes
        blockstore_id externs_id s
      = ({ status_code := .FCPUnclassifiedError,
           error_msg := some e2 }, s)) := by
  have hcr : ∀ g, fil_create_fvm_machine { ext with machine_new := g }
      chain_epoch token_amount network_version state_root_bytes
      blockstore_id externs_id s
    = ({ status_code := .FCPUnclassifiedError,
         error_msg := some e2 }, s) := by
    intro g
    rcases hcreate with hnv | ⟨⟨nv, hnv⟩, hcid⟩
    · simp [fil_create_fvm_machine, fil_create_fvm_machine_body,
        catch_panic_response, TokenAmount.from_u64, hnv]
    · simp [fil_create_fvm_machine, fil_create_fvm_machine_body,
        catch_panic_response, TokenAmount.from_u64, hnv, hcid]
  refine ⟨?_, fun f => ?_, ?_, hcr⟩
  · simp [fil_fvm_machine_execute_message,
      fil_fvm_machine_execute_message_body, catch_panic_response, hmsg]
  · simp [fil_fvm_machine_execute_message,
      fil_fvm_machine_execute_message_body, catch_panic_response, hmsg]
  · exact hcr ext.machine_new

/-- C8 witness: concrete externals on which the message conversion fails and
the network version converts successfully while the state-root parse fails —
the create call is rejected with the cid error before any engine call. -/
theorem conversion_error_before_engine_witness :
    badMsgBadCidExternals.convert_fil_message_to_message ⟨0⟩
      = Except.error "message conversion failed" ∧
    badMsgBadCidExternals.networkVersion_try_from (u64_as_u32 18)
      = Except.ok ⟨18⟩ ∧
    badMsgBadCidExternals.cid_try_from [9] = Except.error "cid parse failed" ∧
    fil_create_fvm_machine badMsgBadCidExternals 100 0 18 [9] 7 8 initialState
      = ({ status_code := .FCPUnclassifiedError,
           error_msg := some "cid parse failed" }, initialState) :=
  ⟨rfl, rfl, rfl,
    (conversion_error_before_engine badMsgBadCidExternals 5 0 ⟨0⟩ 100 0 18 [9]
      7 8 initialState "message conversion failed" "cid parse failed" rfl
      (Or.inr ⟨⟨⟨18⟩, rfl⟩, rfl⟩)).2.2.1⟩

/-- C9: `TokenAmount::from_u64` is total — the token-amount conversion branch
of create is dead code.  Provided no external collaborator happens to fail
with the very text of the fixed token message (true of the real
collaborators, whose errors are debug-formatted conversion/engine errors),
create never returns the "token amount conversion failure" error. -/
theorem token_amount_branch_unreachable (ext : Externals)
    (chain_epoch token_amount network_version : Nat)
    (state_root_bytes : List Nat) (blockstore_id externs_id : Nat)
    (s : FvmState)
    (hnv : ext.networkVersion_try_from (u64_as_u32 network_version)
      ≠ Except.error "token amount conversion failure")
    (hcid : ext.cid_try_from state_root_bytes
      ≠ Except.error "token amount conversion failure")
    (heng : ∀ cfg ep ta nv c b x, ext.machine_new cfg ep ta nv c b x
      ≠ Except.error "token amount conversion failure") :
    TokenAmount.from_u64 token_amount = some ⟨token_amount⟩ ∧
    (fil_create_fvm_machine ext chain_epoch token_amount network_version
        state_root_bytes blockstore_id externs_id s).1.error_msg
      ≠ some "token amount conversion failure" := by
  refine ⟨rfl, ?_⟩
  unfold fil_create_fvm_machine fil_create_fvm_machine_body
  cases hv : ext.networkVersion_try_from (u64_as_u32 network_version) with
  | error e =>
    have he : e ≠ "token amount conversion failure" := by
      intro h
      exact hnv (h ▸ hv)
    simp [catch_panic_response, TokenAmount.from_u64]
    exact he
  | ok nv =>
    cases hc : ext.cid_try_from state_root_bytes with
    | error e =>
      have he : e ≠ "token amount conversion failure" := by
        intro h
        exact hcid (h ▸ hc)
      simp [catch_panic_response, TokenAmount.from_u64]
      exact he
    | ok c =>
      cases hm : ext.machine_new get_default_config (u64_as_i64 chain_epoch)
          ⟨token_amount⟩ nv c (CgoBlockstore.new (u64_as_i32 blockstore_id))
          (CgoExterns.new (u64_as_i32 externs_id)) with
      | ok mach => simp [catch_panic_response, TokenAmount.from_u64, hm]
      | error e =>
        have he : e ≠ "token amount conversion failure" := by
          intro h
          exact heng _ _ _ _ _ _ _ (h ▸ hm)
        simp [catch_panic_response, TokenAmount.from_u64, hm]
        exact he

/-- C9 witness: concrete all-succeeding externals. -/
theorem token_amount_branch_unreachable_witness :
    TokenAmount.from_u64 3 = some ⟨3⟩ ∧
    (fil_create_fvm_machine (mkOkExternals 0) 100 3 18 [0] 7 8
        initialState).1.error_msg
      ≠ some "token amount conversion failure" :=
  token_amount_branch_unreachable (mkOkExternals 0) 100 3 18 [0] 7 8
    initialState (fun h => Except.noConfusion h) (fun h => Except.noConfusion h)
    (fun _ _ _ _ _ _ _ h => Except.noConfusion h)

/-- C10: execute converts the message before the registry is consulted: when
conversion fails, the response carries the conversion error (not "invalid
machine id" — the two are distinct whenever the error text differs), the
registry is returned untouched, and the result is the same whatever the
registry holds, i.e. the map (and its lock) is never consulted. -/
theorem message_conversion_precedes_lookup (ext : Externals)
    (machine_id apply_kind : Nat) (message : fil_Message) (s : FvmState)
    (e : String)
    (hmsg : ext.convert_fil_message_to_message message = Except.error e)
    (hne : e ≠ "invalid machine id") :
    ((fil_fvm_machine_execute_message ext machine_id message apply_kind
        s).1.error_msg = some e) ∧
    ((fil_fvm_machine_execute_message ext machine_id message apply_kind
        s).1.error_msg ≠ some "invalid machine id") ∧
    ((fil_fvm_machine_execute_message ext machine_id message apply_kind
        s).1.status_code = FCPResponseStatus.FCPUnclassifiedError) ∧
    ((fil_fvm_machine_execute_message ext machine_id message apply_kind
        s).2 = s) ∧
    (∀ t, fil_fvm_machine_execute_message ext machine_id message apply_kind t
      = ((fil_fvm_machine_execute_message ext machine_id message apply_kind
          s).1, t)) := by
  refine ⟨?_, ?_, ?_, ?_, fun t => ?_⟩ <;>
    simp [fil_fvm_machine_execute_message,
      fil_fvm_machine_execute_message_body, catch_panic_response, hmsg, hne]

/-- C10 witness: a concrete failing conversion on an unknown handle. -/
theorem message_conversion_precedes_lookup_witness :
    badMsgExternals.convert_fil_message_to_message ⟨0⟩
      = Except.error "conversion failed" ∧
    "conversion failed" ≠ "invalid machine id" ∧
    ((fil_fvm_machine_execute_message badMsgExternals 9 ⟨0⟩ 1
        initialState).1.error_msg = some "conversion failed") :=
  ⟨rfl, by decide,
    (message_conversion_precedes_lookup badMsgExternals 9 1 ⟨0⟩ initialState
      "conversion failed" rfl (by decide)).1⟩

end FfiDemo
